import Mathlib

/-!
Shallow embedding of the "Happy Trails" dog-walking booking app
(`src/App.tsx`, delegated-backend variant): identity provider, booking
store and route guard, with the table and auth-service behaviour of the hosted
backend modelled from the specification where the repository only
contains the client-side callers.
-/

namespace HappyTrails

/-- The `User` record exposed by the auth context (src/App.tsx lines 6-10). -/
structure User where
  id : String
  name : String
  email : String
deriving DecidableEq, Repr

/-- Service kinds of a booking (src/App.tsx line 15). -/
inductive Service where
  | Walk
  | DropIn
  | Overnight
deriving DecidableEq, Repr

/-- The payload the client sends to the `bookings` table:
`Omit<BookingRow, "id" | "created_at">` (src/App.tsx line 82). -/
structure BookingInsert where
  user_id : String
  service : Service
  date : String
  time : String
  duration_mins : Int
  pets : Int
  notes : Option String
deriving DecidableEq, Repr

/-- A row of the `bookings` table (src/App.tsx lines 12-22). The source
types `id` and `created_at` as opaque backend-assigned strings; the spec
only requires `id` to be unique and `created_at` to order rows by creation,
so both are modelled as naturals. -/
structure BookingRow where
  id : Nat
  user_id : String
  service : Service
  date : String
  time : String
  duration_mins : Int
  pets : Int
  notes : Option String
  created_at : Nat
deriving DecidableEq, Repr

/-- Modelled from the spec: the hosted `bookings` table (the delegated
backend is not under src/). Rows are kept in creation order; `nextId` and
`clock` model the backend assigning a fresh unique id and a creation
timestamp to each inserted row. -/
structure BookingsTable where
  rows : List BookingRow
  nextId : Nat
  clock : Nat
deriving DecidableEq, Repr

/-- Modelled from the spec: inserting a row "assigns a new unique id and a
creation timestamp; appends to the store". Returns the created row and the
updated table. -/
def insertRow (t : BookingsTable) (d : BookingInsert) : BookingRow × BookingsTable :=
  let r : BookingRow :=
    { id := t.nextId, user_id := d.user_id, service := d.service, date := d.date,
      time := d.time, duration_mins := d.duration_mins, pets := d.pets,
      notes := d.notes, created_at := t.clock }
  (r, { rows := t.rows ++ [r], nextId := t.nextId + 1, clock := t.clock + 1 })

/-- A response of the backend SDK: a data payload or an error. -/
structure SupaResponse (α : Type) where
  data : Option α
  error : Option String
deriving Repr

/-- Embeds `createBooking` (src/App.tsx lines 82-86): inserts the payload into the
`bookings` table and returns the created row; throws on a backend error.
The modelled backend (network transport is out of scope) always succeeds. -/
def createBooking (d : BookingInsert) (t : BookingsTable) :
    Except String (BookingRow × BookingsTable) :=
  .ok (insertRow t d)

/-- The query `select * from bookings where user_id = uid order by created_at desc`
built by `listUserBookings`. Modelled from the spec: the backend executes the
ownership filter and the descending `created_at` sort server-side. -/
def bookingsQuery (t : BookingsTable) (uid : String) : List BookingRow :=
  List.insertionSort (fun a b => b.created_at ≤ a.created_at)
    (t.rows.filter (fun r => r.user_id == uid))

/-- Embeds `listUserBookings` (src/App.tsx lines 88-96): runs the owner query; on an
error response it throws, otherwise it returns `data ?? []`. -/
def listUserBookings (uid : String) (t : BookingsTable) : Except String (List BookingRow) :=
  let resp : SupaResponse (List BookingRow) :=
    { data := some (bookingsQuery t uid), error := none }
  match resp.error with
  | some e => .error e
  | none => .ok (resp.data.getD [])

/-- Well-formedness of the modelled table: existing ids are below the id
counter, existing timestamps are below the clock, and rows sit in creation
order (strictly increasing `created_at`). -/
structure StoreWF (t : BookingsTable) : Prop where
  ids_lt : ∀ r ∈ t.rows, r.id < t.nextId
  times_lt : ∀ r ∈ t.rows, r.created_at < t.clock
  chron : t.rows.Pairwise (fun a b => a.created_at < b.created_at)

/-- A valid booking input in the sense of the spec: date and time present,
duration and pet count within the bounds of the form (src/App.tsx lines 343, 347). -/
def ValidInput (d : BookingInsert) : Prop :=
  d.date ≠ "" ∧ d.time ≠ "" ∧ 20 ≤ d.duration_mins ∧ d.duration_mins ≤ 240 ∧
    1 ≤ d.pets ∧ d.pets ≤ 6

/-- The fields of a stored row agree with the submitted payload. -/
def RowMatches (r : BookingRow) (d : BookingInsert) : Prop :=
  r.user_id = d.user_id ∧ r.service = d.service ∧ r.date = d.date ∧
    r.time = d.time ∧ r.duration_mins = d.duration_mins ∧ r.pets = d.pets ∧
    r.notes = d.notes

/-- Booking-form state of the `Book` page (src/App.tsx lines 282-287). -/
structure BookForm where
  service : Service
  date : String
  time : String
  durationMins : Int
  pets : Int
  notes : String
deriving DecidableEq, Repr

/-- Outcome of a booking-form submission. -/
inductive SubmitResult where
  | rejected (msg : String)
  | saved (r : BookingRow)
  | failed (msg : String)
deriving DecidableEq, Repr

/-- The payload `Book.submit` passes to `createBooking` (src/App.tsx lines
300-308): a five-character time `HH:MM` becomes `HH:MM:00`, and empty notes
become `null` (`notes || null`). -/
def submittedInsert (u : User) (f : BookForm) : BookingInsert :=
  { user_id := u.id
    service := f.service
    date := f.date
    time := if f.time.length = 5 then f.time ++ ":00" else f.time
    duration_mins := f.durationMins
    pets := f.pets
    notes := if f.notes = "" then none else some f.notes }

/-- Embeds the submit handler of `Book` (src/App.tsx lines 294-316): if date or time is absent
(empty string is falsy) it alerts and returns before any store call;
otherwise it calls `createBooking` with the normalized payload. -/
def submit (u : User) (f : BookForm) (t : BookingsTable) : SubmitResult × BookingsTable :=
  if f.date = "" ∨ f.time = "" then
    (.rejected "Please choose a date and time.", t)
  else
    match createBooking (submittedInsert u f) t with
    | .ok (r, t') => (.saved r, t')
    | .error e => (.failed e, t)

/-- A persisted auth session, as the identity provider reads it back:
the user id, email, and the optional `name` stored in user metadata. -/
structure Session where
  userId : String
  email : String
  metaName : Option String
deriving DecidableEq, Repr

/-- The `User` the provider derives from a session (src/App.tsx line 50):
`name` falls back to the email when no metadata name exists. -/
def sessionUser (s : Session) : User :=
  { id := s.userId, name := s.metaName.getD s.email, email := s.email }

/-- The `user` state of `AuthProvider` at render frame `n` after mount, given
persisted session `ps` (src/App.tsx lines 44-57). `useState<User|null>(null)`
makes frame 0 render with no user; the `useEffect` calling `getSession` runs
only after the first render commits, so the restored identity is visible from
frame 1 on. -/
def authProviderUserState : Nat → Option Session → Option User
  | 0, _ => none
  | _ + 1, ps => ps.map sessionUser

/-- A demonstration persisted session. -/
def sDemo : Session := { userId := "u1", email := "ann@example.com", metaName := some "Ann" }

/-- An auth-service identity: id, email, and the metadata name passed at
sign-up. -/
structure AuthIdentity where
  id : String
  email : String
  metaName : Option String
deriving DecidableEq, Repr

/-- A row of the `profiles` table (columns id, email, name). -/
structure ProfileRow where
  id : String
  email : String
  name : Option String
deriving DecidableEq, Repr

/-- Modelled from the spec: the state of the delegated auth service plus the
`profiles` table (neither is under src/): registered identities, a fresh-id
counter, the persisted session marker, and the profile rows. -/
structure AuthState where
  identities : List AuthIdentity
  nextUid : Nat
  session : Option Session
  profiles : List ProfileRow
deriving DecidableEq, Repr

/-- Modelled from the spec: `supabase.auth.signUp` fails on a duplicate
email; on success it registers a fresh identity and establishes a persisted
session for it. -/
def authServiceSignUp (st : AuthState) (email : String) (name : Option String) :
    Except String (AuthIdentity × AuthState) :=
  if st.identities.any (fun i => i.email == email) then
    .error "duplicate email"
  else
    let u : AuthIdentity := { id := "u" ++ toString st.nextUid, email := email, metaName := name }
    .ok (u, { st with
      identities := st.identities ++ [u],
      nextUid := st.nextUid + 1,
      session := some { userId := u.id, email := email, metaName := name } })

/-- Modelled from the spec: an upsert into the `profiles` table replaces the
row with the same id, or appends. -/
def upsertProfile (ps : List ProfileRow) (p : ProfileRow) : List ProfileRow :=
  if ps.any (fun q => q.id == p.id) then
    ps.map (fun q => if q.id == p.id then p else q)
  else ps ++ [p]

/-- Embeds `signUp` (src/App.tsx lines 59-66): create the auth identity (throwing on
an auth error), then upsert a mirroring `profiles` row. The result of the upsert is
not checked by the source, so a failing profile write (`profileWriteFails`)
still leaves `signUp` succeeding, with no cleanup of the identity. -/
def signUp (st : AuthState) (email : String) (_password : String) (name : Option String)
    (profileWriteFails : Bool) : Except String AuthState :=
  match authServiceSignUp st email name with
  | .error e => .error e
  | .ok (u, st') =>
    if profileWriteFails then .ok st'
    else .ok { st' with
      profiles := upsertProfile st'.profiles { id := u.id, email := u.email, name := name } }

/-- Embeds `signOut` (src/App.tsx lines 73-75): `supabase.auth.signOut()`. Modelled
from the spec: it clears the persisted session marker. -/
def signOut (st : AuthState) : AuthState := { st with session := none }

/-- The active identity the provider derives from the session state (via
`onAuthStateChange`, src/App.tsx lines 52-55). -/
def currentUser (st : AuthState) : Option User := st.session.map sessionUser

/-- The value held by the auth context. -/
structure AuthContextValue where
  user : Option User
deriving DecidableEq, Repr

/-- Embeds `useAuth` (src/App.tsx lines 38-42): throws when called outside the
provider (context is `undefined`), otherwise returns the context value. -/
def useAuth (ctx : Option AuthContextValue) : Except String AuthContextValue :=
  match ctx with
  | none => .error "useAuth must be used within <AuthProvider>"
  | some v => .ok v

/-- The protected pages. -/
inductive Page where
  | book
  | profile
deriving DecidableEq, Repr

/-- What a render pass produces: a redirect (`Navigate`), actual page
content, or nothing (`return null`). -/
inductive RenderOutcome where
  | redirect (dest : String) (replace : Bool)
  | content (page : Page)
  | empty
deriving DecidableEq, Repr

/-- Embeds `ProtectedRoute` (src/App.tsx lines 415-419): with no user it renders
`<Navigate to="/login" replace />`; otherwise it renders its children. -/
def ProtectedRoute (user : Option User) (children : RenderOutcome) : RenderOutcome :=
  match user with
  | none => .redirect "/login" true
  | some _ => children

/-- The render guard of the `Book` page (src/App.tsx line 292):
`if (!user) return null`. -/
def bookRender (user : Option User) : RenderOutcome :=
  match user with
  | none => .empty
  | some _ => .content .book

/-- The render guard of the `Profile` page (src/App.tsx line 374). -/
def profileRender (user : Option User) : RenderOutcome :=
  match user with
  | none => .empty
  | some _ => .content .profile

/-- The owner id that the mount effect of `Profile` queries the store with
(src/App.tsx lines 368-372): `if (!user) return;` issues no query. -/
def profileMountQuery (user : Option User) : Option String :=
  user.map (fun u => u.id)

/-- The `/book` route as wired in the app shell (src/App.tsx line 434). -/
def routeBook (user : Option User) : RenderOutcome :=
  ProtectedRoute user (bookRender user)

/-- The `/profile` route as wired in the app shell (src/App.tsx line 435). -/
def routeProfile (user : Option User) : RenderOutcome :=
  ProtectedRoute user (profileRender user)

/-- A concrete booking row used by concrete instantiations. -/
def rowDemo (i : Nat) (uid : String) (ts : Nat) : BookingRow :=
  { id := i, user_id := uid, service := .Walk, date := "2024-06-01", time := "09:00:00",
    duration_mins := 30, pets := 1, notes := none, created_at := ts }

/-- A concrete well-formed table with bookings of two owners. -/
def tDemo : BookingsTable :=
  { rows := [rowDemo 0 "u1" 0, rowDemo 1 "u2" 1, rowDemo 2 "u1" 2], nextId := 3, clock := 3 }

/-- The empty table. -/
def t0 : BookingsTable := { rows := [], nextId := 0, clock := 0 }

/-- A concrete valid booking payload. -/
def dDemo : BookingInsert :=
  { user_id := "u1", service := .Walk, date := "2024-06-01", time := "09:00:00",
    duration_mins := 30, pets := 1, notes := none }

/-- A concrete user. -/
def uDemo : User := { id := "u1", name := "Ann", email := "ann@example.com" }

/-- A concrete form state with date and time present, a five-character time
and empty notes. -/
def fDemo : BookForm :=
  { service := .Walk, date := "2024-06-01", time := "09:00", durationMins := 30,
    pets := 1, notes := "" }

/-- A concrete form state with the date absent. -/
def fNoDate : BookForm :=
  { service := .Walk, date := "", time := "09:00", durationMins := 30,
    pets := 1, notes := "" }

/-- A fresh auth-service state. -/
def aDemo : AuthState := { identities := [], nextUid := 0, session := none, profiles := [] }

theorem orderedInsert_eq_append (a : BookingRow) :
    ∀ l : List BookingRow, (∀ b ∈ l, a.created_at < b.created_at) →
      List.orderedInsert (fun x y => y.created_at ≤ x.created_at) a l = l ++ [a]
  | [], _ => rfl
  | b :: l, h => by
    have hb : a.created_at < b.created_at := h b (List.mem_cons_self b l)
    simp only [List.orderedInsert, if_neg (Nat.not_le.mpr hb), List.cons_append,
      orderedInsert_eq_append a l (fun c hc => h c (List.mem_cons_of_mem b hc))]

theorem insertionSort_chron_eq_reverse :
    ∀ l : List BookingRow, l.Pairwise (fun a b => a.created_at < b.created_at) →
      List.insertionSort (fun x y => y.created_at ≤ x.created_at) l = l.reverse
  | [], _ => rfl
  | a :: l, h => by
    have ha : ∀ b ∈ l, a.created_at < b.created_at := (List.pairwise_cons.mp h).1
    rw [List.insertionSort, insertionSort_chron_eq_reverse l (List.pairwise_cons.mp h).2,
      orderedInsert_eq_append a l.reverse (fun b hb => ha b (List.mem_reverse.mp hb)),
      List.reverse_cons]

theorem bookingsQuery_eq_reverse_filter (t : BookingsTable) (uid : String)
    (hwf : StoreWF t) :
    bookingsQuery t uid = (t.rows.filter (fun r => r.user_id == uid)).reverse :=
  insertionSort_chron_eq_reverse _ (hwf.chron.filter _)

theorem listUserBookings_eq_ok (uid : String) (t : BookingsTable) :
    listUserBookings uid t = .ok (bookingsQuery t uid) := rfl

/-- C2: for every owner id, `listUserBookings` returns all and only the
bookings whose `user_id` equals that owner, ordered by `created_at` most
recent first — with the table in creation order, the reverse of the filtered
insertion order. -/
theorem listUserBookings_owner_recency (t : BookingsTable) (uid : String)
    (hwf : StoreWF t) :
    ∃ l, listUserBookings uid t = .ok l ∧
      (∀ r, r ∈ l ↔ r ∈ t.rows ∧ r.user_id = uid) ∧
      l.Pairwise (fun a b => b.created_at < a.created_at) ∧
      l = (t.rows.filter (fun r => r.user_id == uid)).reverse := by
  refine ⟨bookingsQuery t uid, rfl, ?_, ?_, bookingsQuery_eq_reverse_filter t uid hwf⟩
  · intro r
    rw [bookingsQuery_eq_reverse_filter t uid hwf]
    simp [List.mem_filter]
  · rw [bookingsQuery_eq_reverse_filter t uid hwf, List.pairwise_reverse]
    exact hwf.chron.filter _

theorem listUserBookings_owner_recency_witness :
    ∃ l, listUserBookings "u1" tDemo = .ok l ∧
      (∀ r, r ∈ l ↔ r ∈ tDemo.rows ∧ r.user_id = "u1") ∧
      l.Pairwise (fun a b => b.created_at < a.created_at) ∧
      l = (tDemo.rows.filter (fun r => r.user_id == "u1")).reverse :=
  listUserBookings_owner_recency tDemo "u1" ⟨by decide, by decide, by decide⟩

/-- C3: for an owner with zero bookings, `listUserBookings` returns the empty
sequence and does not fail. -/
theorem listUserBookings_empty_owner (t : BookingsTable) (uid : String)
    (h : ∀ r ∈ t.rows, r.user_id ≠ uid) :
    listUserBookings uid t = .ok [] := by
  rw [listUserBookings_eq_ok]
  have hf : t.rows.filter (fun r => r.user_id == uid) = [] := by
    simp only [List.filter_eq_nil_iff]
    intro r hr
    simp [h r hr]
  unfold bookingsQuery
  rw [hf]
  rfl

theorem listUserBookings_empty_owner_witness :
    listUserBookings "u3" tDemo = .ok [] :=
  listUserBookings_empty_owner tDemo "u3" (by decide)

/-- C1: for every valid booking input and well-formed store, `createBooking`
followed by `listUserBookings` for the same owner yields exactly the old
listing plus one new entry whose fields equal the submitted fields and whose
id differs from every pre-existing id. -/
theorem createBooking_then_list (t : BookingsTable) (d : BookingInsert)
    (hwf : StoreWF t) (_hv : ValidInput d) :
    ∃ r t' old,
      createBooking d t = .ok (r, t') ∧
      RowMatches r d ∧
      (∀ b ∈ t.rows, b.id ≠ r.id) ∧
      listUserBookings d.user_id t = .ok old ∧
      listUserBookings d.user_id t' = .ok (r :: old) ∧
      r ∉ old := by
  refine ⟨(insertRow t d).1, (insertRow t d).2,
    (t.rows.filter (fun b => b.user_id == d.user_id)).reverse, rfl,
    ⟨rfl, rfl, rfl, rfl, rfl, rfl, rfl⟩, ?_, ?_, ?_, ?_⟩
  · intro b hb
    exact Nat.ne_of_lt (hwf.ids_lt b hb)
  · rw [listUserBookings_eq_ok, bookingsQuery_eq_reverse_filter t _ hwf]
  · rw [listUserBookings_eq_ok]
    have hchron : ((insertRow t d).2.rows).Pairwise
        (fun a b => a.created_at < b.created_at) := by
      refine List.pairwise_append.mpr ⟨hwf.chron, List.pairwise_singleton _ _, ?_⟩
      intro a ha b hb
      rw [List.mem_singleton.mp hb]
      exact hwf.times_lt a ha
    unfold bookingsQuery
    rw [insertionSort_chron_eq_reverse _ (hchron.filter _)]
    show Except.ok ((List.filter _ (t.rows ++ [(insertRow t d).1])).reverse) = _
    rw [List.filter_append]
    have h1 : List.filter (fun r => r.user_id == d.user_id) [(insertRow t d).1]
        = [(insertRow t d).1] := by
      simp [insertRow]
    rw [h1, List.reverse_append]
    rfl
  · intro hmem
    have hr : (insertRow t d).1 ∈ t.rows :=
      (List.mem_filter.mp (List.mem_reverse.mp hmem)).1
    exact absurd (hwf.ids_lt _ hr) (by simp [insertRow])

theorem createBooking_then_list_witness :
    ∃ r t' old,
      createBooking dDemo tDemo = .ok (r, t') ∧
      RowMatches r dDemo ∧
      (∀ b ∈ tDemo.rows, b.id ≠ r.id) ∧
      listUserBookings dDemo.user_id tDemo = .ok old ∧
      listUserBookings dDemo.user_id t' = .ok (r :: old) ∧
      r ∉ old :=
  createBooking_then_list tDemo dDemo ⟨by decide, by decide, by decide⟩
    ⟨by decide, by decide, by decide, by decide, by decide, by decide⟩

/-- C4: a form submission with the date or the time absent is rejected before
any store operation: no create call is issued and the table is unchanged. -/
theorem submit_missing_field_rejected (u : User) (f : BookForm) (t : BookingsTable)
    (h : f.date = "" ∨ f.time = "") :
    submit u f t = (.rejected "Please choose a date and time.", t) := by
  unfold submit
  rw [if_pos h]

theorem submit_missing_field_rejected_witness :
    submit uDemo fNoDate tDemo = (.rejected "Please choose a date and time.", tDemo) :=
  submit_missing_field_rejected uDemo fNoDate tDemo (Or.inl rfl)

/-- C10: with date and time present, the record `submit` passes to the store
normalizes the form state: a five-character `HH:MM` time is stored as
`HH:MM:00` (otherwise unchanged), and empty notes are stored as `none`. -/
theorem submit_normalizes_payload (u : User) (f : BookForm) (t : BookingsTable)
    (hd : f.date ≠ "") (ht : f.time ≠ "") :
    ∃ r t', submit u f t = (.saved r, t') ∧
      r.user_id = u.id ∧ r.service = f.service ∧ r.date = f.date ∧
      r.time = (if f.time.length = 5 then f.time ++ ":00" else f.time) ∧
      r.duration_mins = f.durationMins ∧ r.pets = f.pets ∧
      r.notes = (if f.notes = "" then none else some f.notes) := by
  refine ⟨(insertRow t (submittedInsert u f)).1, (insertRow t (submittedInsert u f)).2,
    ?_, rfl, rfl, rfl, rfl, rfl, rfl, rfl⟩
  unfold submit
  rw [if_neg (not_or.mpr ⟨hd, ht⟩)]
  rfl

theorem submit_normalizes_payload_witness :
    ∃ r t', submit uDemo fDemo tDemo = (.saved r, t') ∧
      r.user_id = uDemo.id ∧ r.service = fDemo.service ∧ r.date = fDemo.date ∧
      r.time = (if fDemo.time.length = 5 then fDemo.time ++ ":00" else fDemo.time) ∧
      r.duration_mins = fDemo.durationMins ∧ r.pets = fDemo.pets ∧
      r.notes = (if fDemo.notes = "" then none else some fDemo.notes) :=
  submit_normalizes_payload uDemo fDemo tDemo (by decide) (by decide)

/-- C5: rendering a protected route with no active identity produces only a
history-replacing redirect to the login page; the protected pages themselves
render nothing and issue no store query while unauthenticated. -/
theorem unauthenticated_protected_routes_redirect :
    routeBook none = .redirect "/login" true ∧
    routeProfile none = .redirect "/login" true ∧
    bookRender none = .empty ∧
    profileRender none = .empty ∧
    profileMountQuery none = none :=
  ⟨rfl, rfl, rfl, rfl, rfl⟩

/-- C6 counterexample: with a persisted session present, the first rendered
frame of `AuthProvider` still has no user — restoration does not happen
before the first render. -/
theorem authProvider_first_frame_unrestored :
    authProviderUserState 0 (some sDemo) = none := rfl

/-- C6 (amended): the provider restores the persisted identity via a mount
effect that runs after the first render: frame 0 always shows no user, and
every later frame shows exactly the identity derived from the persisted
session. -/
theorem authProvider_restores_after_first_render (ps : Option Session) (n : Nat) :
    authProviderUserState 0 ps = none ∧
    authProviderUserState (n + 1) ps = ps.map sessionUser :=
  ⟨rfl, rfl⟩

theorem mem_upsertProfile (ps : List ProfileRow) (p : ProfileRow) :
    p ∈ upsertProfile ps p := by
  unfold upsertProfile
  by_cases h : ps.any (fun q => q.id == p.id) = true
  · rw [if_pos h]
    obtain ⟨q, hq, hid⟩ := List.any_eq_true.mp h
    exact List.mem_map.mpr ⟨q, hq, by simp [hid]⟩
  · rw [if_neg h]
    simp

/-- C7: on a fresh email, `signUp` registers an identity and then writes a
mirroring profile row as a second, unchecked step: when the profile write
fails, `signUp` still succeeds, the identity exists, and the profiles table
is untouched (no cleanup, no error). -/
theorem signUp_two_step_profile (st : AuthState) (email pw : String)
    (name : Option String) (h : ∀ i ∈ st.identities, i.email ≠ email) :
    ∃ u : AuthIdentity, u.email = email ∧ u.metaName = name ∧
      (∃ st₂, signUp st email pw name false = .ok st₂ ∧
        st₂.identities = st.identities ++ [u] ∧
        { id := u.id, email := u.email, name := name } ∈ st₂.profiles) ∧
      (∃ st₁, signUp st email pw name true = .ok st₁ ∧
        st₁.identities = st.identities ++ [u] ∧
        st₁.profiles = st.profiles) := by
  have hany : st.identities.any (fun i => i.email == email) = false := by
    rw [List.any_eq_false]
    intro i hi
    simp [h i hi]
  refine ⟨{ id := "u" ++ toString st.nextUid, email := email, metaName := name },
    rfl, rfl, ?_, ?_⟩
  · refine ⟨{ identities := st.identities ++
                [{ id := "u" ++ toString st.nextUid, email := email, metaName := name }],
              nextUid := st.nextUid + 1,
              session := some { userId := "u" ++ toString st.nextUid, email := email,
                                metaName := name },
              profiles := upsertProfile st.profiles
                { id := "u" ++ toString st.nextUid, email := email, name := name } },
      ?_, rfl, mem_upsertProfile _ _⟩
    simp [signUp, authServiceSignUp, hany]
  · refine ⟨{ identities := st.identities ++
                [{ id := "u" ++ toString st.nextUid, email := email, metaName := name }],
              nextUid := st.nextUid + 1,
              session := some { userId := "u" ++ toString st.nextUid, email := email,
                                metaName := name },
              profiles := st.profiles },
      ?_, rfl, rfl⟩
    simp [signUp, authServiceSignUp, hany]

theorem signUp_two_step_profile_witness :
    ∃ u : AuthIdentity, u.email = "ann@example.com" ∧ u.metaName = some "Ann" ∧
      (∃ st₂, signUp aDemo "ann@example.com" "pw" (some "Ann") false = .ok st₂ ∧
        st₂.identities = aDemo.identities ++ [u] ∧
        { id := u.id, email := u.email, name := some "Ann" } ∈ st₂.profiles) ∧
      (∃ st₁, signUp aDemo "ann@example.com" "pw" (some "Ann") true = .ok st₁ ∧
        st₁.identities = aDemo.identities ++ [u] ∧
        st₁.profiles = aDemo.profiles) :=
  signUp_two_step_profile aDemo "ann@example.com" "pw" (some "Ann") (by decide)

/-- C8: `signOut` clears the persisted session marker and hence the active
identity, is idempotent, and on a state with no session it is a no-op that
still succeeds. -/
theorem signOut_clears_idempotent (st : AuthState) :
    signOut (signOut st) = signOut st ∧
    (signOut st).session = none ∧
    currentUser (signOut st) = none ∧
    (st.session = none → signOut st = st) := by
  refine ⟨rfl, rfl, rfl, fun h => ?_⟩
  cases st with
  | mk ids n s ps =>
    cases h
    rfl

theorem signOut_clears_idempotent_witness :
    signOut (signOut aDemo) = signOut aDemo ∧
    (signOut aDemo).session = none ∧
    currentUser (signOut aDemo) = none ∧
    (aDemo.session = none → signOut aDemo = aDemo) :=
  signOut_clears_idempotent aDemo

/-- C9: calling `useAuth` with no surrounding provider (context absent)
throws immediately and never returns a context value. -/
theorem useAuth_outside_provider_throws :
    useAuth none = .error "useAuth must be used within <AuthProvider>" ∧
    ∀ v : AuthContextValue, useAuth none ≠ .ok v :=
  ⟨rfl, fun _ h => Except.noConfusion h⟩

end HappyTrails
